import Mathlib

/-!
Shallow embedding of `src/finalproject2.py` (Air-Quality-Index dashboard).

The program loads a CSV into a pandas dataframe, derives an `Estimated AQI`
column from the `PM2.5 AQI Category` column via a fixed dictionary, drops the
rows whose category is unmapped, and offers pure query functions over the
resulting table (filtering by city/threshold, mean/max summary, grouped means
by city, top-N selection, distinct city list).

A dataframe cell is modelled by `Value` (a string, a number, or the missing
value NaN/None, written `Value.null`).  A dataframe row is `Row`; a dataframe
is a `List Row` (ordered, duplicates allowed).  Numbers are `ℚ`: every numeric
value the program manipulates (the six lookup constants, means of them,
slider thresholds) is exactly representable.
-/

namespace AirQuality

/-- A dataframe cell: a string, a number, or missing (pandas NaN / Python
`None`).  `City` cells of a CSV are strings or NaN; `PM2.5 AQI Category`
cells likewise. -/
inductive Value where
  | str (s : String)
  | num (q : ℚ)
  | null
  deriving DecidableEq

/-- Whether a cell is the missing value. -/
def Value.isNull : Value → Bool
  | .null => true
  | _ => false

/-- Python's `str.strip()` on the character list: drop leading and trailing
whitespace. -/
def stripChars (l : List Char) : List Char :=
  (((l.dropWhile Char.isWhitespace).reverse).dropWhile Char.isWhitespace).reverse

/-- Python's `str.strip()` (also pandas `.str.strip()` elementwise). -/
def strip (s : String) : String := ⟨stripChars s.data⟩

/-- Python's `<` on strings, on the character lists: lexicographic by code
point.  Executable counterpart of `List.Lex (· < ·)`. -/
def lexLtB : List Char → List Char → Bool
  | [], [] => false
  | [], _ :: _ => true
  | _ :: _, [] => false
  | a :: as, b :: bs => if a < b then true else if b < a then false else lexLtB as bs

/-- Python's `<` on strings (code-point lexicographic). -/
def pyLT (a b : String) : Prop := lexLtB a.data b.data = true

/-- The total order `sorted` sorts by: `a ≤ b` iff not `b < a`. -/
def pyLE (a b : String) : Prop := (!lexLtB b.data a.data) = true

instance : DecidableRel pyLT := fun a b =>
  decidable_of_iff (lexLtB a.data b.data = true) Iff.rfl

instance : DecidableRel pyLE := fun a b =>
  decidable_of_iff ((!lexLtB b.data a.data) = true) Iff.rfl

/-- One row of the dataframe, restricted to the columns the specified logic
touches: `City`, `PM2.5 AQI Category` and the derived `Estimated AQI`
(`none` = NaN, i.e. not yet computed or unmapped). -/
structure Row where
  city : Value
  pm25_category : Value
  estimated_aqi : Option ℚ
  deriving DecidableEq

/-- `category_to_value` — the fixed dictionary of lines 47-54 of
`finalproject2.py`, as a lookup on string keys. -/
def category_to_value : String → Option ℚ
  | "Good" => some 25
  | "Moderate" => some 75
  | "Unhealthy for Sensitive Groups" => some 125
  | "Unhealthy" => some 175
  | "Very Unhealthy" => some 250
  | "Hazardous" => some 350
  | _ => none

/-- `Series.map(category_to_value)` applied to one cell: dictionary keys are
strings, so a numeric or missing cell maps to NaN (`none`). -/
def mapCategory : Value → Option ℚ
  | .str s => category_to_value s
  | _ => none

/-- Line 61: `df['Estimated AQI'] = df['PM2.5 AQI Category'].map(category_to_value)`,
on one row. -/
def addEstimatedAqi (r : Row) : Row :=
  { r with estimated_aqi := mapCategory r.pm25_category }

/-- Lines 61-62: compute the `Estimated AQI` column, then
`df.dropna(subset=['Estimated AQI'])` removes the rows where it is NaN. -/
def normalize (df : List Row) : List Row :=
  (df.map addEstimatedAqi).filter (fun r => r.estimated_aqi.isSome)

/-- The two fatal load failures of the script (each reported via `st.error`
followed by `st.stop()`, which aborts the run). -/
inductive LoadError where
  | fileNotFound
  | missingColumn
  deriving DecidableEq

/-- A parsed CSV before normalization: its header names and its rows. -/
structure RawTable where
  cols : List String
  rows : List Row

/-- Lines 39-62 of `finalproject2.py`.  `src = none` models
`pd.read_csv` raising `FileNotFoundError` (the file cannot be opened);
the `except` branch reports the error and calls `st.stop()`.  Otherwise the
header names are stripped (line 41: `df.columns = df.columns.str.strip()`);
if `'PM2.5 AQI Category'` is not among them the script reports the error and
calls `st.stop()` (lines 57-59).  Otherwise the normalized dataset is built.
`st.stop()` halts the whole script, so a failure never yields a dataset:
this is the `Except.error` branch. -/
def load (src : Option RawTable) : Except LoadError (List Row) :=
  match src with
  | none => .error .fileNotFound
  | some t =>
    let cols := t.cols.map strip
    if "PM2.5 AQI Category" ∈ cols then .ok (normalize t.rows)
    else .error .missingColumn

/-- `df['City'] == city` on one cell: pandas elementwise equality of an
object cell with a Python string.  NaN and numbers never equal a string. -/
def cityEq (v : Value) (c : String) : Bool :=
  match v with
  | .str s => s == c
  | _ => false

/-- `df['Estimated AQI'] > threshold` on one cell: a NaN comparison is
`False` in pandas. -/
def aqiGt (a : Option ℚ) (t : ℚ) : Bool :=
  match a with
  | some x => decide (t < x)
  | none => false

/-- Lines 70-73:
`def filter_data(df, city=None, threshold=50): ...`.
`if city:` is Python truthiness — the city branch is taken exactly when the
argument is neither `None` nor the empty string. -/
def filter_data (df : List Row) (city : Option String) (threshold : ℚ) : List Row :=
  match city with
  | some c =>
    if c = "" then df.filter (fun r => aqiGt r.estimated_aqi threshold)
    else df.filter (fun r => cityEq r.city c && aqiGt r.estimated_aqi threshold)
  | none => df.filter (fun r => aqiGt r.estimated_aqi threshold)

/-- The test of the list comprehension on line 65:
`isinstance(city, str) and city.strip() != ''`; returns the kept string. -/
def isValidCity : Value → Option String
  | .str s => if strip s = "" then none else some s
  | _ => none

/-- Line 65:
`cities = sorted([city for city in df['City'].unique() if isinstance(city, str) and city.strip() != ''])`.
`unique()` lists each distinct cell once (`List.dedup`; `unique()` keeps first
occurrences and `dedup` keeps last, but the subsequent `sorted` makes the two
produce the same list); the comprehension keeps non-empty, non-whitespace
strings; `sorted` sorts them ascending (code-point lexicographic, as Python
does on `str`). -/
def cities (df : List Row) : List String :=
  List.insertionSort pyLE (((df.map Row.city).dedup).filterMap isValidCity)

/-- `Series.mean()` over the `Estimated AQI` column of a view: pandas skips
NaN, so the mean is the sum of the defined values divided by their count
(NaN — here an unspecified `0` — on an all-NaN/empty view; the spec makes
guarding against that the caller's job). -/
def meanAqi (df : List Row) : ℚ :=
  let vs := df.filterMap Row.estimated_aqi
  vs.sum / (vs.length : ℚ)

/-- `Series.max()` over the `Estimated AQI` column of a view: pandas skips
NaN (NaN — here an unspecified `0` — on an all-NaN/empty view). -/
def maxAqi (df : List Row) : ℚ :=
  ((df.filterMap Row.estimated_aqi).maximum).unbot' 0

/-- Lines 76-77:
`def get_summary(df): return df['Estimated AQI'].mean(), df['Estimated AQI'].max()`. -/
def get_summary (df : List Row) : ℚ × ℚ :=
  (meanAqi df, maxAqi df)

/-- The distinct grouping keys of `df.groupby('City')`: pandas groups on the
raw `City` cells but, by its default `dropna=True`, discards the NaN key. -/
def cityKeys (df : List Row) : List Value :=
  ((df.map Row.city).filter (fun v => !v.isNull)).dedup

/-- Line 110: `grouped_df = df.groupby('City')['Estimated AQI'].mean()` —
one entry per distinct non-NaN `City` cell, valued by the mean of
`Estimated AQI` over that key's rows.  (pandas lists the keys sorted; no
claim depends on entry order.) -/
def groupMeanByCity (df : List Row) : List (Value × ℚ) :=
  (cityKeys df).map (fun c => (c, meanAqi (df.filter (fun r => r.city == c))))

/-- `Estimated AQI` comparison used for the descending sort behind
`nlargest`: NaN sorts below every number (pandas keeps NaN out of
`nlargest` results altogether; see `topN`). -/
def aqiLeB : Option ℚ → Option ℚ → Bool
  | none, _ => true
  | some _, none => false
  | some x, some y => decide (x ≤ y)

/-- "Row `a` has `Estimated AQI` at least row `b`'s" — the descending order
on rows used by `nlargest`. -/
def AqiGE (a b : Row) : Prop :=
  aqiLeB b.estimated_aqi a.estimated_aqi = true

instance : DecidableRel AqiGE := fun a b =>
  instDecidableEqBool (aqiLeB b.estimated_aqi a.estimated_aqi) true

instance : IsTotal Row AqiGE where
  total a b := by
    unfold AqiGE
    rcases ha : a.estimated_aqi with _ | x <;> rcases hb : b.estimated_aqi with _ | y <;>
      simp [aqiLeB, le_total]

instance : IsTrans Row AqiGE where
  trans a b c hab hbc := by
    unfold AqiGE at *
    rcases ha : a.estimated_aqi with _ | x <;> rcases hb : b.estimated_aqi with _ | y <;>
        rcases hc : c.estimated_aqi with _ | z <;>
      simp_all [aqiLeB]
    exact le_trans hbc hab

/-- Line 131: `top10_df = df.nlargest(10, 'Estimated AQI')`, with the count
as a parameter: the rows whose `Estimated AQI` is defined, sorted descending
by it (stable), truncated to the first `n` (`nlargest` never returns a row
whose sort column is NaN; on the normalized dataset every row is defined). -/
def topN (df : List Row) (n : ℕ) : List Row :=
  (List.insertionSort AqiGE (df.filter (fun r => r.estimated_aqi.isSome))).take n

/-- Line 139: `default_city = cities[0] if cities else None`. -/
def default_city (df : List Row) : Option String :=
  (cities df).head?

/-- Lines 139-142:
`multi_filter_df = df[(df['Estimated AQI'] > default_threshold) & (df['City'] == default_city)]`
with `default_threshold = 50`.  When `default_city` is `None` the pandas
elementwise `== None` is `False` on every cell. -/
def multi_filter_df (df : List Row) : List Row :=
  df.filter (fun r =>
    aqiGt r.estimated_aqi 50 &&
      (match default_city df with
       | some c => cityEq r.city c
       | none => false))

/-! ### Shared helper lemmas and example data -/

/-- A normalized row carries exactly the value the category dictionary
assigns to its (unchanged) `PM2.5 AQI Category` cell. -/
theorem normalize_aqi_eq {df : List Row} {r : Row} (hr : r ∈ normalize df) :
    r.estimated_aqi = mapCategory r.pm25_category := by
  rcases List.mem_filter.mp hr with ⟨hmem, _⟩
  rcases List.mem_map.mp hmem with ⟨r₀, _, rfl⟩
  rfl

/-- Every normalized row has a defined `Estimated AQI`. -/
theorem normalize_isSome {df : List Row} {r : Row} (hr : r ∈ normalize df) :
    r.estimated_aqi.isSome := by
  exact (List.mem_filter.mp hr).2

/-- A three-row example input: a mapped row, a row with an unrecognized
category (dropped at normalization), and a mapped row with a missing city. -/
def exInput : List Row :=
  [⟨.str "CityA", .str "Good", none⟩,
   ⟨.str "CityB", .str "Bogus", none⟩,
   ⟨.null, .str "Moderate", none⟩]

/-- Example rows of a normalized dataset (the spec's example readings). -/
def rowA25 : Row := ⟨.str "CityA", .str "Good", some 25⟩

/-- CityA reading with estimated AQI 75. -/
def rowA75 : Row := ⟨.str "CityA", .str "Moderate", some 75⟩

/-- CityB reading with estimated AQI 175. -/
def rowB175 : Row := ⟨.str "CityB", .str "Unhealthy", some 175⟩

/-- CityC reading with estimated AQI 350. -/
def rowC350 : Row := ⟨.str "CityC", .str "Hazardous", some 350⟩

/-- The spec's example dataset [(CityA,25),(CityA,75),(CityB,175)]. -/
def exDf : List Row := [rowA25, rowA75, rowB175]

/-- The spec's example dataset with AQI column [350, 25, 175, 75]. -/
def exDf6 : List Row := [rowC350, rowA25, rowB175, rowA75]

/-! ### Claims -/

/-- **C1.** For every row retained in the normalized dataset whose
`pm25_category` is one of the six recognized category strings, the derived
`estimated_aqi` equals exactly the constant of the fixed lookup table:
"Good" ↦ 25, "Moderate" ↦ 75, "Unhealthy for Sensitive Groups" ↦ 125,
"Unhealthy" ↦ 175, "Very Unhealthy" ↦ 250, "Hazardous" ↦ 350. -/
theorem C1_category_lookup (df : List Row) (r : Row) (hr : r ∈ normalize df) :
    (r.pm25_category = .str "Good" → r.estimated_aqi = some 25) ∧
    (r.pm25_category = .str "Moderate" → r.estimated_aqi = some 75) ∧
    (r.pm25_category = .str "Unhealthy for Sensitive Groups" → r.estimated_aqi = some 125) ∧
    (r.pm25_category = .str "Unhealthy" → r.estimated_aqi = some 175) ∧
    (r.pm25_category = .str "Very Unhealthy" → r.estimated_aqi = some 250) ∧
    (r.pm25_category = .str "Hazardous" → r.estimated_aqi = some 350) := by
  have h := normalize_aqi_eq hr
  refine ⟨?_, ?_, ?_, ?_, ?_, ?_⟩ <;> intro hc <;>
    rw [h, hc] <;> rfl

/-- Witness for C1 on the concrete input `exInput`. -/
theorem C1_category_lookup_witness :
    Row.mk (.str "CityA") (.str "Good") (some 25) ∈ normalize exInput ∧
    ((Row.mk (.str "CityA") (.str "Good") (some 25)).pm25_category = .str "Good" →
      (Row.mk (.str "CityA") (.str "Good") (some 25)).estimated_aqi = some 25) :=
  ⟨by decide, (C1_category_lookup exInput _ (by decide)).1⟩

/-- **C2.** After normalization every row has a defined `estimated_aqi`, no
row with an unmapped `pm25_category` survives, and the normalized size is
the input size minus the number of unmapped rows, for every input table. -/
theorem C2_normalization_invariant (df : List Row) :
    (∀ r ∈ normalize df, r.estimated_aqi.isSome) ∧
    (∀ r ∈ normalize df, (mapCategory r.pm25_category).isSome) ∧
    (normalize df).length =
      df.length - (df.filter (fun r => (mapCategory r.pm25_category).isNone)).length := by
  refine ⟨fun r hr => normalize_isSome hr, fun r hr => ?_, ?_⟩
  · have h := normalize_isSome hr
    rwa [normalize_aqi_eq hr] at h
  · have hlen : (normalize df).length =
        df.countP (fun r => (mapCategory r.pm25_category).isSome) := by
      rw [normalize, ← List.countP_eq_length_filter, List.countP_map]
      simp [Function.comp_def, addEstimatedAqi]
    have hsplit : ∀ l : List Row,
        l.countP (fun r => (mapCategory r.pm25_category).isSome) +
          l.countP (fun r => (mapCategory r.pm25_category).isNone) = l.length := by
      intro l
      induction l with
      | nil => rfl
      | cons a t ih =>
        cases h : mapCategory a.pm25_category <;>
          simp [List.countP_cons, h] <;> omega
    have h2 := hsplit df
    rw [hlen, ← List.countP_eq_length_filter]
    omega

/-- Witness for C2 on `exInput` (3 rows, 1 unmapped, so 2 survive). -/
theorem C2_normalization_invariant_witness :
    (normalize exInput).length =
      exInput.length -
        (exInput.filter (fun r => (mapCategory r.pm25_category).isNone)).length :=
  (C2_normalization_invariant exInput).2.2

/-- **C3.** For every dataset, threshold and city value: with a provided
(non-null, non-empty) city `c`, `filter_data` returns exactly the records
with `city = c` and `estimated_aqi > t` (AND-ed); with the city omitted it
returns exactly the records with `estimated_aqi > t`; and when nothing
matches it returns the empty view rather than an error. -/
theorem C3_filter_data_semantics (df : List Row) (t : ℚ) :
    (∀ c : String, c ≠ "" → ∀ r : Row,
      r ∈ filter_data df (some c) t ↔
        r ∈ df ∧ cityEq r.city c = true ∧ aqiGt r.estimated_aqi t = true) ∧
    (∀ r : Row,
      r ∈ filter_data df none t ↔ r ∈ df ∧ aqiGt r.estimated_aqi t = true) ∧
    (∀ c : String, c ≠ "" →
      (∀ r ∈ df, ¬(cityEq r.city c = true ∧ aqiGt r.estimated_aqi t = true)) →
      filter_data df (some c) t = []) ∧
    ((∀ r ∈ df, ¬aqiGt r.estimated_aqi t = true) → filter_data df none t = []) := by
  refine ⟨fun c hc r => ?_, fun r => ?_, fun c hc hnone => ?_, fun hnone => ?_⟩
  · simp [filter_data, hc, List.mem_filter, and_assoc]
  · simp [filter_data, List.mem_filter]
  · simp only [filter_data, if_neg hc, List.filter_eq_nil_iff]
    intro a ha
    have := hnone a ha
    simp only [Bool.and_eq_true]
    tauto
  · simp only [filter_data, List.filter_eq_nil_iff]
    intro a ha
    exact hnone a ha

/-- Witness for C3 at a concrete dataset, city and threshold. -/
theorem C3_filter_data_semantics_witness :
    ("CityA" ≠ "" ∧
      (rowA75 ∈ filter_data exDf (some "CityA") 50 ↔
        rowA75 ∈ exDf ∧ cityEq rowA75.city "CityA" = true ∧
          aqiGt rowA75.estimated_aqi 50 = true)) ∧
    (rowB175 ∈ filter_data exDf none 50 ↔
      rowB175 ∈ exDf ∧ aqiGt rowB175.estimated_aqi 50 = true) :=
  ⟨⟨by decide, (C3_filter_data_semantics exDf 50).1 "CityA" (by decide) rowA75⟩,
    (C3_filter_data_semantics exDf 50).2.1 rowB175⟩

/-- **C10.** `filter_data` always returns an order-preserving subsequence of
its input: every returned row is a row of the input, in the same relative
order (`List.Sublist`).  The embedding is a pure function on lists, so the
input dataset itself is unchanged by the call — pandas boolean-mask
selection likewise builds a new frame and never mutates `df`. -/
theorem C10_filter_data_sublist (df : List Row) (city : Option String) (t : ℚ) :
    (filter_data df city t).Sublist df := by
  rcases city with _ | c
  · exact List.filter_sublist df
  · by_cases hc : c = "" <;> simp [filter_data, hc]

/-- A raw table whose (untrimmed) header does contain the mandatory column. -/
def rawGood : RawTable := ⟨[" PM2.5 AQI Category ", "City"], exInput⟩

/-- A raw table whose header lacks the mandatory column. -/
def rawBad : RawTable := ⟨["City", "AQI Value"], exInput⟩

/-- **C4.** Loading fails fatally — the run stops with a reported error and
no dataset is produced (the `Except.error` branch carries no data) — in
exactly two conditions: the source cannot be opened (`fileNotFound`) and the
whitespace-trimmed header lacks `PM2.5 AQI Category` (`missingColumn`); in
every other case it succeeds with the normalized dataset.  The three cases
below are exhaustive, so errors arise in those two conditions and no other. -/
theorem C4_load_fatal_conditions :
    load none = .error .fileNotFound ∧
    ∀ t : RawTable,
      ("PM2.5 AQI Category" ∈ t.cols.map strip →
        load (some t) = .ok (normalize t.rows)) ∧
      ("PM2.5 AQI Category" ∉ t.cols.map strip →
        load (some t) = .error .missingColumn) := by
  refine ⟨rfl, fun t => ⟨fun h => ?_, fun h => ?_⟩⟩
  · simp [load, h]
  · simp [load, h]

/-- Witness for C4: a header containing `" PM2.5 AQI Category "` (trimmed to
the mandatory name) loads, a header without the column errors out. -/
theorem C4_load_fatal_conditions_witness :
    ("PM2.5 AQI Category" ∈ rawGood.cols.map strip ∧
      load (some rawGood) = .ok (normalize rawGood.rows)) ∧
    ("PM2.5 AQI Category" ∉ rawBad.cols.map strip ∧
      load (some rawBad) = .error .missingColumn) :=
  ⟨⟨by decide, (C4_load_fatal_conditions.2 rawGood).1 (by decide)⟩,
   ⟨by decide, (C4_load_fatal_conditions.2 rawBad).2 (by decide)⟩⟩

/-- `isValidCity` keeps exactly the string cells whose strip is non-empty. -/
theorem isValidCity_eq_some {v : Value} {s : String} :
    isValidCity v = some s ↔ v = .str s ∧ strip s ≠ "" := by
  cases v with
  | null => simp [isValidCity]
  | num q => simp [isValidCity]
  | str s' =>
    by_cases h : strip s' = ""
    · simp only [isValidCity, if_pos h]
      constructor
      · intro hx; cases hx
      · rintro ⟨hss, hne⟩
        injection hss with hss
        subst hss
        exact absurd h hne
    · simp only [isValidCity, if_neg h]
      constructor
      · intro hx
        injection hx with hx
        subst hx
        exact ⟨rfl, h⟩
      · rintro ⟨hss, _⟩
        injection hss with hss
        subst hss
        rfl

/-- The executable comparison agrees with lexicographic order on the
character lists. -/
theorem lexLtB_iff {as bs : List Char} :
    lexLtB as bs = true ↔ List.Lex (· < ·) as bs := by
  induction as generalizing bs with
  | nil =>
    cases bs with
    | nil =>
      constructor
      · intro h; exact Bool.noConfusion h
      · intro h; exact absurd h (List.Lex.not_nil_right _ _)
    | cons b bs =>
      constructor
      · intro _; exact List.Lex.nil
      · intro _; rfl
  | cons a as ih =>
    cases bs with
    | nil =>
      constructor
      · intro h; exact Bool.noConfusion h
      · intro h; exact absurd h (List.Lex.not_nil_right _ _)
    | cons b bs =>
      show (if a < b then true else if b < a then false else lexLtB as bs) = true ↔ _
      rcases lt_trichotomy a b with hab | hab | hab
      · rw [if_pos hab]
        constructor
        · intro _; exact List.Lex.rel hab
        · intro _; rfl
      · subst hab
        simp only [if_neg (lt_irrefl a)]
        rw [ih, List.Lex.cons_iff]
      · rw [if_neg (not_lt_of_gt hab), if_pos hab]
        constructor
        · intro h; exact Bool.noConfusion h
        · intro h
          cases h with
          | cons hcl => exact absurd hab (lt_irrefl a)
          | rel hcl => exact absurd hcl (not_lt_of_gt hab)

/-- `pyLT` is the lexicographic (code-point, case-sensitive) strict order. -/
theorem pyLT_iff_lex {a b : String} :
    pyLT a b ↔ List.Lex (· < ·) a.data b.data :=
  lexLtB_iff

/-- `pyLE a b` holds iff `b` is not lexicographically before `a`. -/
theorem pyLE_iff_not_lex {a b : String} :
    pyLE a b ↔ ¬List.Lex (· < ·) b.data a.data := by
  rw [← lexLtB_iff]
  show (!lexLtB b.data a.data) = true ↔ ¬lexLtB b.data a.data = true
  cases lexLtB b.data a.data <;> simp

instance : IsTotal String pyLE where
  total a b := by
    rw [pyLE_iff_not_lex, pyLE_iff_not_lex]
    by_cases h : List.Lex (· < ·) b.data a.data
    · right
      exact asymm h
    · left
      exact h

instance : IsTrans String pyLE where
  trans a b c hab hbc := by
    rw [pyLE_iff_not_lex] at *
    intro hca
    have htri : List.Lex (· < ·) c.data b.data ∨ c.data = b.data ∨
        List.Lex (· < ·) b.data c.data :=
      trichotomous_of (List.Lex (· < ·)) c.data b.data
    rcases htri with h | h | h
    · exact hbc h
    · rw [h] at hca
      exact hab hca
    · exact hab (Trans.trans h hca)

/-- **C5.** `cities` (the `distinctCities` of the spec) contains a string
`s` iff some row's `city` cell is the string `s` and `s` is not empty or
whitespace-only — non-string cells are excluded entirely — and the result
is strictly sorted ascending in lexicographic code-point order
(`List.Lex (· < ·)` on the character lists, case-sensitive), hence
duplicate-free. -/
theorem C5_distinctCities (df : List Row) :
    (∀ s : String,
      s ∈ cities df ↔ (Value.str s) ∈ df.map Row.city ∧ strip s ≠ "") ∧
    (cities df).Pairwise (fun a b => List.Lex (· < ·) a.data b.data) := by
  constructor
  · intro s
    simp only [cities, List.mem_insertionSort, List.mem_filterMap,
      List.mem_dedup]
    constructor
    · rintro ⟨v, hv, hvs⟩
      rcases isValidCity_eq_some.mp hvs with ⟨rfl, hne⟩
      exact ⟨hv, hne⟩
    · rintro ⟨hv, hne⟩
      exact ⟨.str s, hv, isValidCity_eq_some.mpr ⟨rfl, hne⟩⟩
  · have hsorted : (cities df).Pairwise pyLE :=
      List.sorted_insertionSort _ _
    have hnodup : (cities df).Nodup := by
      refine ((List.perm_insertionSort _ _).nodup_iff).mpr ?_
      refine List.Nodup.filterMap ?_ (List.nodup_dedup _)
      intro a a' b hb hb'
      rcases isValidCity_eq_some.mp hb with ⟨rfl, _⟩
      rcases isValidCity_eq_some.mp hb' with ⟨rfl, _⟩
      rfl
    refine (hsorted.and hnodup).imp ?_
    rintro a b ⟨hle, hne⟩
    rw [pyLE_iff_not_lex] at hle
    have htri : List.Lex (· < ·) a.data b.data ∨ a.data = b.data ∨
        List.Lex (· < ·) b.data a.data :=
      trichotomous_of (List.Lex (· < ·)) a.data b.data
    rcases htri with h | h | h
    · exact h
    · exact absurd (by cases a; cases b; exact congrArg String.mk h) hne
    · exact absurd h hle

/-- Witness for C5 on the three-row example dataset. -/
theorem C5_distinctCities_witness :
    ("CityA" ∈ cities exDf ↔
      (Value.str "CityA") ∈ exDf.map Row.city ∧ strip "CityA" ≠ "") ∧
    (cities exDf).Pairwise (fun a b => List.Lex (· < ·) a.data b.data) :=
  ⟨(C5_distinctCities exDf).1 "CityA", (C5_distinctCities exDf).2⟩

/-- On a dataset whose `Estimated AQI` is everywhere defined, the defined
values are one per row. -/
theorem filterMap_aqi_length {df : List Row}
    (h : ∀ r ∈ df, r.estimated_aqi.isSome) :
    (df.filterMap Row.estimated_aqi).length = df.length := by
  induction df with
  | nil => rfl
  | cons a t ih =>
    rcases Option.isSome_iff_exists.mp (h a (List.mem_cons_self a t)) with ⟨v, hv⟩
    simp [List.filterMap_cons, hv,
      ih (fun r hr => h r (List.mem_cons_of_mem a hr))]

/-- **C6.** For every dataset with defined AQI everywhere (as the normalized
dataset is) and every `n`, `topN` returns `min n |ds|` of the dataset's
records (a sub-permutation of the dataset) sorted descending by
`estimated_aqi`; and on rows with AQI `[350, 25, 175, 75]`, `topN _ 2`
returns the 350-row then the 175-row. -/
theorem C6_topN_spec :
    (∀ (df : List Row) (n : ℕ), (∀ r ∈ df, r.estimated_aqi.isSome) →
      (topN df n).length = min n df.length ∧
      (topN df n).Pairwise AqiGE ∧
      (topN df n).Subperm df) ∧
    topN exDf6 2 = [rowC350, rowB175] := by
  constructor
  · intro df n h
    have hfilter : df.filter (fun r => r.estimated_aqi.isSome) = df :=
      List.filter_eq_self.mpr h
    refine ⟨?_, ?_, ?_⟩
    · rw [topN, hfilter, List.length_take, List.length_insertionSort]
    · exact List.Pairwise.sublist (List.take_sublist _ _)
        (List.sorted_insertionSort AqiGE _)
    · rw [topN, hfilter]
      exact ((List.take_sublist _ _).subperm).trans
        ((List.perm_insertionSort AqiGE df).subperm)
  · decide

/-- Witness for C6: the general part instantiated on the example dataset. -/
theorem C6_topN_spec_witness :
    (∀ r ∈ exDf6, r.estimated_aqi.isSome) ∧
    ((topN exDf6 2).length = min 2 exDf6.length ∧
      (topN exDf6 2).Pairwise AqiGE ∧
      (topN exDf6 2).Subperm exDf6) :=
  ⟨by decide, C6_topN_spec.1 exDf6 2 (by decide)⟩

/-- **C8.** On every non-empty view with defined AQI everywhere,
`get_summary` returns the pair (arithmetic mean, maximum) of the
`Estimated AQI` values: the first component times the row count is the sum
of the values, and the second component is a value attained in the view
that bounds every value.  On rows `[25, 75, 175]` it returns
`(275/3, 175)` — `275/3 = 91.666…`. -/
theorem C8_summary_spec :
    (∀ df : List Row, df ≠ [] → (∀ r ∈ df, r.estimated_aqi.isSome) →
      (get_summary df).1 * (df.length : ℚ) =
        (df.filterMap Row.estimated_aqi).sum ∧
      (get_summary df).2 ∈ df.filterMap Row.estimated_aqi ∧
      (∀ x ∈ df.filterMap Row.estimated_aqi, x ≤ (get_summary df).2)) ∧
    get_summary exDf = (275/3, 175) := by
  constructor
  · intro df hne h
    have hlen : (df.filterMap Row.estimated_aqi).length = df.length :=
      filterMap_aqi_length h
    have hpos : 0 < df.length := List.length_pos.mpr hne
    have hvpos : 0 < (df.filterMap Row.estimated_aqi).length := by omega
    have hvne : df.filterMap Row.estimated_aqi ≠ [] := by
      intro hcon
      rw [hcon] at hvpos
      exact absurd hvpos (by simp)
    refine ⟨?_, ?_⟩
    · show meanAqi df * (df.length : ℚ) = _
      rw [meanAqi]
      rw [hlen]
      rw [div_mul_cancel₀]
      exact Nat.cast_ne_zero.mpr (by omega)
    · have hbot : (df.filterMap Row.estimated_aqi).maximum ≠ ⊥ :=
        List.maximum_ne_bot_of_ne_nil hvne
      rcases WithBot.ne_bot_iff_exists.mp hbot with ⟨m, hm⟩
      have hchar := List.maximum_eq_coe_iff.mp hm.symm
      have hmax : (get_summary df).2 = m := by
        show maxAqi df = m
        rw [maxAqi, ← hm, WithBot.unbot'_coe]
      rw [hmax]
      exact hchar
  · have hmean : meanAqi exDf = 275/3 := by
      have hv : exDf.filterMap Row.estimated_aqi = [25, 75, 175] := by decide
      rw [meanAqi, hv]
      norm_num
    have hmax : maxAqi exDf = 175 := by decide
    show (meanAqi exDf, maxAqi exDf) = _
    rw [hmean, hmax]

/-- Witness for C8: the general part instantiated on the example view. -/
theorem C8_summary_spec_witness :
    (exDf ≠ [] ∧ ∀ r ∈ exDf, r.estimated_aqi.isSome) ∧
    ((get_summary exDf).1 * (exDf.length : ℚ) =
        (exDf.filterMap Row.estimated_aqi).sum ∧
      (get_summary exDf).2 ∈ exDf.filterMap Row.estimated_aqi ∧
      (∀ x ∈ exDf.filterMap Row.estimated_aqi, x ≤ (get_summary exDf).2)) :=
  ⟨⟨by decide, by decide⟩, C8_summary_spec.1 exDf (by decide) (by decide)⟩

/-- A one-row dataset whose `City` cell is missing (NaN): its mapped
category is recognized, so the row survives normalization, yet
`groupby('City')` (default `dropna=True`) produces no group for it. -/
def exDfNullCity : List Row := [⟨.null, .str "Good", some 25⟩]

/-- **C7, counterexample.** The claim "one entry per distinct raw `city`
value present in the dataset (including city values that `distinctCities`
would exclude)" fails at `exDfNullCity`: the missing value is a raw `city`
cell of the dataset, `distinctCities` excludes it, but `groupMeanByCity`
has no entry for it (pandas `groupby` drops the NaN key). -/
theorem C7_groupMeanByCity_counterexample :
    Value.null ∈ exDfNullCity.map Row.city ∧
    ∀ m : ℚ, (Value.null, m) ∉ groupMeanByCity exDfNullCity := by
  constructor
  · decide
  · intro m hm
    have hempty : groupMeanByCity exDfNullCity = [] := rfl
    rw [hempty] at hm
    cases hm

/-- **C7, amended.** For every dataset, `groupMeanByCity` has exactly one
entry per distinct **non-missing** raw `city` value present in the dataset
(still including every value `distinctCities` would exclude other than NaN,
e.g. whitespace-only strings and numeric cells), each entry's value being
the arithmetic mean of `estimated_aqi` over that city's records (times the
group size it gives the group's sum, on defined-AQI data); on rows
[(CityA,25),(CityA,75),(CityB,175)] it returns CityA ↦ 50 and CityB ↦ 175. -/
theorem C7_groupMeanByCity_amended :
    (∀ df : List Row,
      ((groupMeanByCity df).map Prod.fst).Nodup ∧
      (∀ v : Value,
        (∃ m, (v, m) ∈ groupMeanByCity df) ↔
          v ∈ df.map Row.city ∧ v.isNull = false) ∧
      (∀ v m, (v, m) ∈ groupMeanByCity df →
        m = meanAqi (df.filter (fun r => r.city == v))) ∧
      (∀ v m, (v, m) ∈ groupMeanByCity df →
        (∀ r ∈ df, r.estimated_aqi.isSome) →
        m * ((df.filter (fun r => r.city == v)).length : ℚ) =
          ((df.filter (fun r => r.city == v)).filterMap Row.estimated_aqi).sum)) ∧
    groupMeanByCity exDf =
      [(.str "CityA", 50), (.str "CityB", 175)] := by
  constructor
  · intro df
    have hkeys : (groupMeanByCity df).map Prod.fst = cityKeys df := by
      rw [groupMeanByCity, List.map_map]
      exact List.map_id _
    have hmemkeys : ∀ v : Value,
        v ∈ cityKeys df ↔ v ∈ df.map Row.city ∧ v.isNull = false := by
      intro v
      rw [cityKeys, List.mem_dedup, List.mem_filter]
      rw [Bool.not_eq_eq_eq_not]
      simp only [Bool.not_true]
    refine ⟨?_, ?_, ?_, ?_⟩
    · rw [hkeys]
      exact List.nodup_dedup _
    · intro v
      rw [← hmemkeys]
      constructor
      · rintro ⟨m, hm⟩
        rcases List.mem_map.mp hm with ⟨k, hk, hkm⟩
        have : k = v := congrArg Prod.fst hkm
        rwa [this] at hk
      · intro hv
        exact ⟨meanAqi (df.filter (fun r => r.city == v)),
          List.mem_map.mpr ⟨v, hv, rfl⟩⟩
    · intro v m hm
      rcases List.mem_map.mp hm with ⟨k, _, hkm⟩
      have hk : k = v := congrArg Prod.fst hkm
      have hval := congrArg Prod.snd hkm
      rw [hk] at hval
      exact hval.symm
    · intro v m hm hdef
      have hmean : m = meanAqi (df.filter (fun r => r.city == v)) := by
        rcases List.mem_map.mp hm with ⟨k, _, hkm⟩
        have hk : k = v := congrArg Prod.fst hkm
        have hval := congrArg Prod.snd hkm
        rw [hk] at hval
        exact hval.symm
      have hvkey : v ∈ cityKeys df := by
        rcases List.mem_map.mp hm with ⟨k, hk, hkm⟩
        have hkv : k = v := congrArg Prod.fst hkm
        rwa [hkv] at hk
      have hvmem : v ∈ df.map Row.city := ((hmemkeys v).mp hvkey).1
      rcases List.mem_map.mp hvmem with ⟨r, hr, hrv⟩
      have hrmem : r ∈ df.filter (fun r => r.city == v) :=
        List.mem_filter.mpr ⟨hr, by rw [hrv]; exact beq_self_eq_true v⟩
      have hgne : df.filter (fun r => r.city == v) ≠ [] :=
        List.ne_nil_of_mem hrmem
      have hglen : 0 < (df.filter (fun r => r.city == v)).length :=
        List.length_pos.mpr hgne
      have hgdef : ∀ x ∈ df.filter (fun r => r.city == v),
          x.estimated_aqi.isSome :=
        fun x hx => hdef x (List.mem_filter.mp hx).1
      rw [hmean, meanAqi, filterMap_aqi_length hgdef, div_mul_cancel₀]
      exact Nat.cast_ne_zero.mpr (by omega)
  · have hA : meanAqi (exDf.filter (fun r => r.city == Value.str "CityA")) = 50 := by
      have hf : exDf.filter (fun r => r.city == Value.str "CityA") =
          [rowA25, rowA75] := by decide
      have hv : (exDf.filter (fun r => r.city == Value.str "CityA")).filterMap
          Row.estimated_aqi = [25, 75] := by decide
      rw [meanAqi, hv]
      norm_num
    have hB : meanAqi (exDf.filter (fun r => r.city == Value.str "CityB")) = 175 := by
      have hv : (exDf.filter (fun r => r.city == Value.str "CityB")).filterMap
          Row.estimated_aqi = [175] := by decide
      rw [meanAqi, hv]
      norm_num
    have hkeys : cityKeys exDf = [.str "CityA", .str "CityB"] := by decide
    rw [groupMeanByCity, hkeys, List.map_cons, List.map_cons, List.map_nil,
      hA, hB]

/-- Witness for C7's amended theorem at the example dataset. -/
theorem C7_groupMeanByCity_amended_witness :
    (∃ m, (Value.str "CityA", m) ∈ groupMeanByCity exDf) ↔
      Value.str "CityA" ∈ exDf.map Row.city ∧
        (Value.str "CityA").isNull = false :=
  (C7_groupMeanByCity_amended.1 exDf).2.1 (Value.str "CityA")

/-- **C9.** When the city list is non-empty, the hardcoded multi-filtered
display (`Estimated AQI > 50` AND `City == cities[0]`) computes exactly the
records with city equal to the first element of `cities` and AQI strictly
above 50, and coincides with `filter_data` at that city and threshold 50. -/
theorem C9_multi_filter_refinement :
    ∀ (df : List Row) (c : String), (cities df).head? = some c →
      multi_filter_df df = filter_data df (some c) 50 ∧
      ∀ r : Row, r ∈ multi_filter_df df ↔
        r ∈ df ∧ cityEq r.city c = true ∧ aqiGt r.estimated_aqi 50 = true := by
  intro df c hc
  have hdc : default_city df = some c := hc
  have hcmem : c ∈ cities df := List.mem_of_mem_head? hc
  have hcne : c ≠ "" := by
    rw [cities, List.mem_insertionSort] at hcmem
    rcases List.mem_filterMap.mp hcmem with ⟨v, _, hvs⟩
    rcases isValidCity_eq_some.mp hvs with ⟨_, hne⟩
    intro hcon
    rw [hcon] at hne
    exact hne rfl
  have hmf : multi_filter_df df =
      df.filter (fun r => aqiGt r.estimated_aqi 50 && cityEq r.city c) := by
    rw [multi_filter_df]
    apply List.filter_congr
    intro r _
    rw [hdc]
  have hfd : filter_data df (some c) 50 =
      df.filter (fun r => cityEq r.city c && aqiGt r.estimated_aqi 50) := by
    rw [filter_data, if_neg hcne]
  constructor
  · rw [hmf, hfd]
    apply List.filter_congr
    intro r _
    rw [Bool.and_comm]
  · intro r
    rw [hmf, List.mem_filter, Bool.and_eq_true]
    tauto

/-- Witness for C9 on the example dataset (`cities` head is CityA). -/
theorem C9_multi_filter_refinement_witness :
    (cities exDf).head? = some "CityA" ∧
    multi_filter_df exDf = filter_data exDf (some "CityA") 50 :=
  ⟨by decide, (C9_multi_filter_refinement exDf "CityA" (by decide)).1⟩

end AirQuality
